import Mathlib

/-!
Verification of the two file-emitter scripts in `case_studies/hildesheim_study`:
`create_complete_hildesheim.py` and `write_complete_script.py`. Each script
embeds a fixed R-script payload as a triple-quoted string literal, writes it to
the fixed relative path `hildesheim_production.R`, and then prints status
messages to standard output. We embed each module body as a state transformer
over an explicit world (filesystem, standard output, standard error, a network
log, and the environment variables), with an oracle supplying the filesystem
outcomes of the run (target directory present, write permission, disk space),
and we record an event trace for the temporal and resource-safety properties.
An uncaught OSError from `open` or `write` terminates the interpreter with
exit code 1 and a traceback on standard error, which is the standard Python 3
semantics for a module body with no exception handler.
-/

namespace Hildesheim

/-- Byte sequences are lists of naturals (each below 256 for real encodings). -/
abbrev Bytes := List Nat

/-- UTF-8 encoding of a single character, computed from its Unicode scalar
value. -/
def utf8Char (c : Char) : Bytes :=
  let n := c.toNat
  if n < 0x80 then [n]
  else if n < 0x800 then [0xC0 + n / 0x40, 0x80 + n % 0x40]
  else if n < 0x10000 then
    [0xE0 + n / 0x1000, 0x80 + (n / 0x40) % 0x40, 0x80 + n % 0x40]
  else
    [0xF0 + n / 0x40000, 0x80 + (n / 0x1000) % 0x40,
     0x80 + (n / 0x40) % 0x40, 0x80 + n % 0x40]

/-- UTF-8 encoding of a string: the encoding requested explicitly by
`open(..., encoding=utf-8)` on line 5 of `create_complete_hildesheim.py`. -/
def utf8Encode (s : String) : Bytes := s.data.flatMap utf8Char

/-- Encoding of a string by an arbitrary character encoding `enc`.
`write_complete_script.py` opens its file without an explicit encoding
argument, so the bytes it writes are produced by the locale preferred
encoding of the host environment. -/
def encodeWith (enc : Char → Bytes) (s : String) : Bytes := s.data.flatMap enc

/-- An encoding is ASCII-compatible when it sends every ASCII character to its
single ASCII byte. Every locale encoding Python selects as the default for
text files on its supported platforms has this property. -/
def asciiCompatible (enc : Char → Bytes) : Prop :=
  ∀ c : Char, c.toNat < 128 → enc c = [c.toNat]

/-- Target path literal of `create_complete_hildesheim.py`, line 5. -/
def pathCreate : String := "hildesheim_production.R"

/-- Target path literal of `write_complete_script.py`, line 21. -/
def pathWrite : String := "hildesheim_production.R"

/-- The string literal passed to `f.write(...)` in
`create_complete_hildesheim.py`, lines 7-23. -/
def payloadCreate : String :=
  "# =\x3d=\x3d=\x3d=\x3d=\x3d=\x3d=\x3d=\x3d=\x3d=\x3d=\x3d=\x3d=\x3d=\x3d=\x3d=\x3d=\x3d=\x3d=\x3d=\x3d=\x3d=\x3d=\x3d=\x3d=\x3d=\x3d=\x3d=\x3d=\x3d=\x3d=\x3d=\x3d=\x3d=\x3d=\x3d=\x3d=\x3d=\x3d=\n# HILFO STUDIE - PRODUCTION VERSION WITH COMPLETE DATA RECORDING\n# =\x3d=\x3d=\x3d=\x3d=\x3d=\x3d=\x3d=\x3d=\x3d=\x3d=\x3d=\x3d=\x3d=\x3d=\x3d=\x3d=\x3d=\x3d=\x3d=\x3d=\x3d=\x3d=\x3d=\x3d=\x3d=\x3d=\x3d=\x3d=\x3d=\x3d=\x3d=\x3d=\x3d=\x3d=\x3d=\x3d=\x3d=\x3d=\n# All variables recorded with proper names, cloud storage enabled\n# NOW WITH PROGRAMMING ANXIETY ADDED (2 pages before BFI)\n\nlibrary(inrep)\n# Don\x27t load heavy packages at startup - load them only when needed\n\n# =\x3d=\x3d=\x3d=\x3d=\x3d=\x3d=\x3d=\x3d=\x3d=\x3d=\x3d=\x3d=\x3d=\x3d=\x3d=\x3d=\x3d=\x3d=\x3d=\x3d=\x3d=\x3d=\x3d=\x3d=\x3d=\x3d=\x3d=\x3d=\x3d=\x3d=\x3d=\x3d=\x3d=\x3d=\x3d=\x3d=\x3d=\x3d=\n# CLOUD STORAGE CREDENTIALS - Hildesheim Study Folder\n# =\x3d=\x3d=\x3d=\x3d=\x3d=\x3d=\x3d=\x3d=\x3d=\x3d=\x3d=\x3d=\x3d=\x3d=\x3d=\x3d=\x3d=\x3d=\x3d=\x3d=\x3d=\x3d=\x3d=\x3d=\x3d=\x3d=\x3d=\x3d=\x3d=\x3d=\x3d=\x3d=\x3d=\x3d=\x3d=\x3d=\x3d=\x3d=\n# Public WebDAV folder: https://sync.academiccloud.de/index.php/s/OUarlqGbhYopkBc\nWEBDAV_URL <- \"https://sync.academiccloud.de/public.php/webdav/\"\nWEBDAV_PASSWORD <- \"ws2526\"\nWEBDAV_SHARE_TOKEN <- \"OUarlqGbhYopkBc\"  # Share token for authentication\n"

/-- The string literal bound to `complete_script` in
`write_complete_script.py`, lines 3-19. -/
def payloadWrite : String :=
  "# =\x3d=\x3d=\x3d=\x3d=\x3d=\x3d=\x3d=\x3d=\x3d=\x3d=\x3d=\x3d=\x3d=\x3d=\x3d=\x3d=\x3d=\x3d=\x3d=\x3d=\x3d=\x3d=\x3d=\x3d=\x3d=\x3d=\x3d=\x3d=\x3d=\x3d=\x3d=\x3d=\x3d=\x3d=\x3d=\x3d=\x3d=\x3d=\n# HILFO STUDIE - PRODUCTION VERSION WITH COMPLETE DATA RECORDING\n# =\x3d=\x3d=\x3d=\x3d=\x3d=\x3d=\x3d=\x3d=\x3d=\x3d=\x3d=\x3d=\x3d=\x3d=\x3d=\x3d=\x3d=\x3d=\x3d=\x3d=\x3d=\x3d=\x3d=\x3d=\x3d=\x3d=\x3d=\x3d=\x3d=\x3d=\x3d=\x3d=\x3d=\x3d=\x3d=\x3d=\x3d=\x3d=\n# All variables recorded with proper names, cloud storage enabled\n# NOW WITH PROGRAMMING ANXIETY ADDED (2 pages before BFI)\n\nlibrary(inrep)\n# Don\x27t load heavy packages at startup - load them only when needed\n\n# =\x3d=\x3d=\x3d=\x3d=\x3d=\x3d=\x3d=\x3d=\x3d=\x3d=\x3d=\x3d=\x3d=\x3d=\x3d=\x3d=\x3d=\x3d=\x3d=\x3d=\x3d=\x3d=\x3d=\x3d=\x3d=\x3d=\x3d=\x3d=\x3d=\x3d=\x3d=\x3d=\x3d=\x3d=\x3d=\x3d=\x3d=\x3d=\n# CLOUD STORAGE CREDENTIALS - Hildesheim Study Folder\n# =\x3d=\x3d=\x3d=\x3d=\x3d=\x3d=\x3d=\x3d=\x3d=\x3d=\x3d=\x3d=\x3d=\x3d=\x3d=\x3d=\x3d=\x3d=\x3d=\x3d=\x3d=\x3d=\x3d=\x3d=\x3d=\x3d=\x3d=\x3d=\x3d=\x3d=\x3d=\x3d=\x3d=\x3d=\x3d=\x3d=\x3d=\x3d=\n# Public WebDAV folder: https://sync.academiccloud.de/index.php/s/OUarlqGbhYopkBc\nWEBDAV_URL <- \"https://sync.academiccloud.de/public.php/webdav/\"\nWEBDAV_PASSWORD <- \"ws2526\"\nWEBDAV_SHARE_TOKEN <- \"OUarlqGbhYopkBc\"  # Share token for authentication\n"

/-- First message printed by `create_complete_hildesheim.py`, line 25. -/
def msgCreate1 : String := "Script created successfully!"

/-- Second message printed by `create_complete_hildesheim.py`, line 26. -/
def msgCreate2 : String := "File: hildesheim_production.R"

/-- Third message printed by `create_complete_hildesheim.py`, line 27. -/
def msgCreate3 : String := "Now run: python3 create_complete_hildesheim.py"

/-- Message printed by `write_complete_script.py`, line 24. -/
def msgWrite1 : String := "File started. Now appending the rest..."

/-- The single error kind: every filesystem failure surfaces as OSError
(historically named IOError) in Python 3. -/
inductive PyError where
  | ioError
deriving DecidableEq, Repr

/-- Observable events of one run, in program order. -/
inductive Event where
  | openFile : String → Event
  | writeFile : String → Bytes → Event
  | closeFile : String → Event
  | printOut : String → Event
  | printErr : String → Event
deriving DecidableEq, Repr

/-- The observable world: the local filesystem (path to byte contents), the
two standard streams, a log of network messages sent, and the process
environment variables. -/
structure World where
  files : String → Option Bytes
  stdoutLog : List String
  stderrLog : List String
  netLog : List Bytes
  envVars : String → Option String

/-- Oracle for the filesystem outcomes of one run: whether the target
directory exists, whether the process may write in it, whether the disk can
hold the whole write, and how many bytes land if the write fails midway. -/
structure Oracle where
  dirOk : Bool
  permOk : Bool
  writeOk : Bool
  truncLen : Nat

/-- A finished run: the final world, the event trace, the process exit code,
and the uncaught exception, if any. -/
structure RunResult where
  world : World
  trace : List Event
  exitCode : Nat
  error : Option PyError

/-- Replace the contents of one file of the world. -/
def setFile (w : World) (p : String) (b : Bytes) : World :=
  { w with files := fun q => if q = p then some b else w.files q }

/-- Append one line to standard error. -/
def pushErr (w : World) (m : String) : World :=
  { w with stderrLog := w.stderrLog ++ [m] }

/-- Append lines to standard output. -/
def pushOut (w : World) (ms : List String) : World :=
  { w with stdoutLog := w.stdoutLog ++ ms }

/-- The diagnostic the interpreter writes to standard error when the OSError
propagates uncaught out of the module body. -/
def ioDiagnostic : String := "Traceback (most recent call last): OSError"

/-- Whether opening the target for writing succeeds under the oracle: the
target directory must exist and the process must have write permission. -/
def openOk (o : Oracle) : Bool := o.dirOk && o.permOk

/-- Whether the whole run (open, then the full write) succeeds. -/
def succeeds (o : Oracle) : Bool := o.dirOk && o.permOk && o.writeOk

/-- One run of the module body of `create_complete_hildesheim.py`: open the
target in truncating write mode with explicit UTF-8 encoding inside a `with`
block, write the payload literal, and print three messages. Opening in mode
w truncates the file at once; if the write then fails, the `with` block still
closes the handle and the file keeps the truncated partial contents, and the
uncaught OSError ends the run with exit code 1 and a traceback on standard
error. If the open itself fails, nothing on the filesystem changes. -/
def runCreate (o : Oracle) (w : World) : RunResult :=
  if openOk o then
    let afterOpen := setFile w pathCreate []
    if o.writeOk then
      let bytes := utf8Encode payloadCreate
      { world := pushOut (setFile afterOpen pathCreate bytes)
          [msgCreate1, msgCreate2, msgCreate3]
        trace := [Event.openFile pathCreate, Event.writeFile pathCreate bytes,
                  Event.closeFile pathCreate, Event.printOut msgCreate1,
                  Event.printOut msgCreate2, Event.printOut msgCreate3]
        exitCode := 0
        error := none }
    else
      let bytes := (utf8Encode payloadCreate).take o.truncLen
      { world := pushErr (setFile afterOpen pathCreate bytes) ioDiagnostic
        trace := [Event.openFile pathCreate, Event.closeFile pathCreate,
                  Event.printErr ioDiagnostic]
        exitCode := 1
        error := some PyError.ioError }
  else
    { world := pushErr w ioDiagnostic
      trace := [Event.printErr ioDiagnostic]
      exitCode := 1
      error := some PyError.ioError }

/-- One run of the module body of `write_complete_script.py`: bind the
payload literal to `complete_script`, open the target in truncating write
mode with the default (locale) encoding `enc` inside a `with` block, write
the payload, and print one message. Failure semantics are as in
`runCreate`. -/
def runWrite (o : Oracle) (enc : Char → Bytes) (w : World) : RunResult :=
  if openOk o then
    let afterOpen := setFile w pathWrite []
    if o.writeOk then
      let bytes := encodeWith enc payloadWrite
      { world := pushOut (setFile afterOpen pathWrite bytes) [msgWrite1]
        trace := [Event.openFile pathWrite, Event.writeFile pathWrite bytes,
                  Event.closeFile pathWrite, Event.printOut msgWrite1]
        exitCode := 0
        error := none }
    else
      let bytes := (encodeWith enc payloadWrite).take o.truncLen
      { world := pushErr (setFile afterOpen pathWrite bytes) ioDiagnostic
        trace := [Event.openFile pathWrite, Event.closeFile pathWrite,
                  Event.printErr ioDiagnostic]
        exitCode := 1
        error := some PyError.ioError }
  else
    { world := pushErr w ioDiagnostic
      trace := [Event.printErr ioDiagnostic]
      exitCode := 1
      error := some PyError.ioError }

/-- Is the event a message on standard output? -/
def isPrintOut : Event → Bool
  | Event.printOut _ => true
  | _ => false

/-- Is the event the closing of a file handle? -/
def isCloseFile : Event → Bool
  | Event.closeFile _ => true
  | _ => false

/-- Is the event a write through a file handle? -/
def isWriteFile : Event → Bool
  | Event.writeFile _ _ => true
  | _ => false

/-- Is the event the closing of the handle for path `p`? -/
def isClosingOf (p : String) : Event → Bool
  | Event.closeFile q => q == p
  | _ => false

/-- Every handle opened in the trace is closed later in the trace. -/
def releasedAfterOpen : List Event → Bool
  | [] => true
  | Event.openFile p :: rest => rest.any (isClosingOf p) && releasedAfterOpen rest
  | _ :: rest => releasedAfterOpen rest

/-- No standard-output message occurs before the first event satisfying the
barrier `b`. -/
def printsOnlyAfter (b : Event → Bool) : List Event → Bool
  | [] => true
  | e :: rest => if b e then true else !isPrintOut e && printsOnlyAfter b rest

/-- A string is ASCII when every character has scalar value below 128. -/
def allAscii (s : String) : Bool := s.data.all fun c => decide (c.toNat < 128)

/-- An all-true oracle: directory present, write permission, disk space. -/
def oAllOk : Oracle := { dirOk := true, permOk := true, writeOk := true, truncLen := 0 }

/-- An oracle for a run whose target directory is missing. -/
def oNoDir : Oracle := { dirOk := false, permOk := true, writeOk := true, truncLen := 0 }

/-- A world with no files, empty streams, no traffic, no variables. -/
def emptyWorld : World :=
  { files := fun _ => none, stdoutLog := [], stderrLog := [], netLog := [],
    envVars := fun _ => none }

/-- A world whose target file already holds one unrelated byte. -/
def priorWorld : World :=
  { files := fun q => if q = pathCreate then some [65] else none,
    stdoutLog := [], stderrLog := [], netLog := [], envVars := fun _ => none }

theorem utf8Char_ascii (c : Char) (h : c.toNat < 128) : utf8Char c = [c.toNat] := by
  simp [utf8Char, h]

theorem utf8Char_asciiCompatible : asciiCompatible utf8Char :=
  fun c h => utf8Char_ascii c h

theorem flatMap_eq_map_of_ascii (enc : Char → Bytes) (h : asciiCompatible enc) :
    ∀ l : List Char, (∀ c ∈ l, c.toNat < 128) → l.flatMap enc = l.map Char.toNat := by
  intro l
  induction l with
  | nil => intro _; rfl
  | cons c cs ih =>
      intro hl
      have hc : c.toNat < 128 := hl c (List.mem_cons_self c cs)
      have hcs : ∀ x ∈ cs, x.toNat < 128 := fun x hx => hl x (List.mem_cons_of_mem c hx)
      simp [List.flatMap_cons, h c hc, ih hcs]

theorem encodeWith_eq_utf8 (enc : Char → Bytes) (h : asciiCompatible enc) (s : String)
    (hs : ∀ c ∈ s.data, c.toNat < 128) : encodeWith enc s = utf8Encode s := by
  unfold encodeWith utf8Encode
  rw [flatMap_eq_map_of_ascii enc h s.data hs,
    flatMap_eq_map_of_ascii utf8Char utf8Char_asciiCompatible s.data hs]

set_option maxRecDepth 100000 in
theorem payloadCreate_allAscii : allAscii payloadCreate = true := by rfl

theorem payloadCreate_ascii : ∀ c ∈ payloadCreate.data, c.toNat < 128 := by
  have h := payloadCreate_allAscii
  rw [allAscii, List.all_eq_true] at h
  intro c hc
  exact of_decide_eq_true (h c hc)

theorem payloadWrite_eq_payloadCreate : payloadWrite = payloadCreate := rfl

theorem payloadWrite_ascii : ∀ c ∈ payloadWrite.data, c.toNat < 128 := by
  rw [payloadWrite_eq_payloadCreate]
  exact payloadCreate_ascii

theorem payloadCreate_data_ne_nil : payloadCreate.data ≠ [] := by
  intro h
  have hfalse : payloadCreate.data.isEmpty = true := by rw [h]; rfl
  rw [show payloadCreate.data.isEmpty = false from rfl] at hfalse
  exact Bool.false_ne_true hfalse

theorem payloadCreate_ne_empty : payloadCreate ≠ "" := by
  intro h
  apply payloadCreate_data_ne_nil
  rw [h]

theorem payloadWrite_ne_empty : payloadWrite ≠ "" := by
  rw [payloadWrite_eq_payloadCreate]
  exact payloadCreate_ne_empty

theorem utf8Encode_payloadCreate_eq_map :
    utf8Encode payloadCreate = payloadCreate.data.map Char.toNat :=
  flatMap_eq_map_of_ascii utf8Char utf8Char_asciiCompatible payloadCreate.data
    payloadCreate_ascii

theorem utf8Encode_payloadCreate_ne_nil : utf8Encode payloadCreate ≠ [] := by
  rw [utf8Encode_payloadCreate_eq_map]
  simp [payloadCreate_data_ne_nil]

theorem succeeds_destruct (o : Oracle) (hs : succeeds o = true) :
    o.dirOk = true ∧ o.permOk = true ∧ o.writeOk = true := by
  unfold succeeds at hs
  rw [Bool.and_eq_true, Bool.and_eq_true] at hs
  exact ⟨hs.1.1, hs.1.2, hs.2⟩

theorem runCreate_files_success (o : Oracle) (w : World) (hs : succeeds o = true) :
    (runCreate o w).world.files pathCreate = some (utf8Encode payloadCreate) := by
  obtain ⟨hd, hp, hw⟩ := succeeds_destruct o hs
  simp [runCreate, openOk, hd, hp, hw, setFile, pushOut]

theorem runWrite_files_success (o : Oracle) (enc : Char → Bytes) (w : World)
    (hs : succeeds o = true) (henc : asciiCompatible enc) :
    (runWrite o enc w).world.files pathWrite = some (utf8Encode payloadWrite) := by
  obtain ⟨hd, hp, hw⟩ := succeeds_destruct o hs
  simp [runWrite, openOk, hd, hp, hw, setFile, pushOut,
    encodeWith_eq_utf8 enc henc payloadWrite payloadWrite_ascii]

theorem openOk_false_of_bad (o : Oracle) (h : o.dirOk = false ∨ o.permOk = false) :
    openOk o = false := by
  unfold openOk
  rcases h with h | h <;> simp [h]

/-- C1: for every run in which emit completes successfully, a file exists at
the fixed target path `hildesheim_production.R` and its byte contents exactly
equal the UTF-8 encoding of the embedded payload string. This holds for both
scripts: the second one writes through the locale default encoding, and since
its payload is ASCII, any ASCII-compatible locale encoding produces exactly
the UTF-8 bytes. -/
theorem C1_success_writes_payload (o : Oracle) (enc : Char → Bytes) (w : World)
    (hs : succeeds o = true) (henc : asciiCompatible enc) :
    (runCreate o w).world.files pathCreate = some (utf8Encode payloadCreate) ∧
    (runWrite o enc w).world.files pathWrite = some (utf8Encode payloadWrite) :=
  ⟨runCreate_files_success o w hs, runWrite_files_success o enc w hs henc⟩

/-- C1 witness at a concrete oracle, encoding and world. -/
theorem C1_success_writes_payload_witness :
    succeeds oAllOk = true ∧ asciiCompatible utf8Char ∧
    ((runCreate oAllOk emptyWorld).world.files pathCreate
        = some (utf8Encode payloadCreate) ∧
     (runWrite oAllOk utf8Char emptyWorld).world.files pathWrite
        = some (utf8Encode payloadWrite)) :=
  ⟨by decide, utf8Char_asciiCompatible,
    C1_success_writes_payload oAllOk utf8Char emptyWorld (by decide)
      utf8Char_asciiCompatible⟩

/-- C2: the two source files are functionally equivalent: same target path,
same payload literal, and on every successful run they produce output files
with identical byte contents. -/
theorem C2_scripts_equivalent (o : Oracle) (enc : Char → Bytes) (w : World)
    (hs : succeeds o = true) (henc : asciiCompatible enc) :
    pathCreate = pathWrite ∧ payloadCreate = payloadWrite ∧
    (runCreate o w).world.files pathCreate
      = (runWrite o enc w).world.files pathWrite := by
  refine ⟨rfl, rfl, ?_⟩
  rw [runCreate_files_success o w hs, runWrite_files_success o enc w hs henc,
    payloadWrite_eq_payloadCreate]

/-- C2 witness at a concrete oracle, encoding and world. -/
theorem C2_scripts_equivalent_witness :
    succeeds oAllOk = true ∧ asciiCompatible utf8Char ∧
    (pathCreate = pathWrite ∧ payloadCreate = payloadWrite ∧
     (runCreate oAllOk emptyWorld).world.files pathCreate
       = (runWrite oAllOk utf8Char emptyWorld).world.files pathWrite) :=
  ⟨by decide, utf8Char_asciiCompatible,
    C2_scripts_equivalent oAllOk utf8Char emptyWorld (by decide)
      utf8Char_asciiCompatible⟩

/-- C3: when the target directory does not exist or is not writable, each
script fails with IOError, the filesystem is unchanged (no file at any path
is created or modified), and the run terminates with a non-zero exit code. -/
theorem C3_open_failure (o : Oracle) (enc : Char → Bytes) (w : World)
    (h : o.dirOk = false ∨ o.permOk = false) :
    (runCreate o w).error = some PyError.ioError ∧
    (runCreate o w).world.files = w.files ∧
    (runCreate o w).exitCode ≠ 0 ∧
    (runWrite o enc w).error = some PyError.ioError ∧
    (runWrite o enc w).world.files = w.files ∧
    (runWrite o enc w).exitCode ≠ 0 := by
  have hopen := openOk_false_of_bad o h
  simp [runCreate, runWrite, hopen, pushErr]

/-- C3 witness: a concrete run whose target directory is missing. -/
theorem C3_open_failure_witness :
    (oNoDir.dirOk = false ∨ oNoDir.permOk = false) ∧
    ((runCreate oNoDir emptyWorld).error = some PyError.ioError ∧
     (runCreate oNoDir emptyWorld).world.files = emptyWorld.files ∧
     (runCreate oNoDir emptyWorld).exitCode ≠ 0 ∧
     (runWrite oNoDir utf8Char emptyWorld).error = some PyError.ioError ∧
     (runWrite oNoDir utf8Char emptyWorld).world.files = emptyWorld.files ∧
     (runWrite oNoDir utf8Char emptyWorld).exitCode ≠ 0) :=
  ⟨Or.inl rfl, C3_open_failure oNoDir utf8Char emptyWorld (Or.inl rfl)⟩

/-- C4: emit is idempotent with overwrite semantics: on a successful run the
final contents of the target are exactly the full payload bytes, independent
of any prior contents of the file (full replacement, never append or merge),
and running a script twice in succession leaves the same final contents as
running it once. -/
theorem C4_idempotent_overwrite (o : Oracle) (enc : Char → Bytes) (w w' : World)
    (hs : succeeds o = true) (henc : asciiCompatible enc) :
    (runCreate o (runCreate o w).world).world.files pathCreate
        = (runCreate o w).world.files pathCreate ∧
    (runWrite o enc (runWrite o enc w).world).world.files pathWrite
        = (runWrite o enc w).world.files pathWrite ∧
    (runCreate o w).world.files pathCreate = some (utf8Encode payloadCreate) ∧
    (runCreate o w').world.files pathCreate
        = (runCreate o w).world.files pathCreate ∧
    (runWrite o enc w').world.files pathWrite
        = (runWrite o enc w).world.files pathWrite := by
  refine ⟨?_, ?_, runCreate_files_success o w hs, ?_, ?_⟩
  · rw [runCreate_files_success o (runCreate o w).world hs,
      runCreate_files_success o w hs]
  · rw [runWrite_files_success o enc (runWrite o enc w).world hs henc,
      runWrite_files_success o enc w hs henc]
  · rw [runCreate_files_success o w' hs, runCreate_files_success o w hs]
  · rw [runWrite_files_success o enc w' hs henc,
      runWrite_files_success o enc w hs henc]

/-- C4 witness: concrete runs over the empty world and over a world whose
target file already holds one unrelated byte. -/
theorem C4_idempotent_overwrite_witness :
    succeeds oAllOk = true ∧ asciiCompatible utf8Char ∧
    ((runCreate oAllOk (runCreate oAllOk emptyWorld).world).world.files pathCreate
        = (runCreate oAllOk emptyWorld).world.files pathCreate ∧
     (runWrite oAllOk utf8Char
        (runWrite oAllOk utf8Char emptyWorld).world).world.files pathWrite
        = (runWrite oAllOk utf8Char emptyWorld).world.files pathWrite ∧
     (runCreate oAllOk emptyWorld).world.files pathCreate
        = some (utf8Encode payloadCreate) ∧
     (runCreate oAllOk priorWorld).world.files pathCreate
        = (runCreate oAllOk emptyWorld).world.files pathCreate ∧
     (runWrite oAllOk utf8Char priorWorld).world.files pathWrite
        = (runWrite oAllOk utf8Char emptyWorld).world.files pathWrite) :=
  ⟨by decide, utf8Char_asciiCompatible,
    C4_idempotent_overwrite oAllOk utf8Char emptyWorld priorWorld (by decide)
      utf8Char_asciiCompatible⟩

/-- C5: the process exit code is 0 exactly when the write succeeded; on any
I/O failure the exit code is 1 and the interpreter appends its traceback
diagnostic to standard error, for both scripts. -/
theorem C5_exit_code_iff_success (o : Oracle) (enc : Char → Bytes) (w : World) :
    ((runCreate o w).exitCode = 0 ↔ succeeds o = true) ∧
    ((runWrite o enc w).exitCode = 0 ↔ succeeds o = true) ∧
    (succeeds o = false →
      (runCreate o w).exitCode = 1 ∧
      (runCreate o w).world.stderrLog = w.stderrLog ++ [ioDiagnostic] ∧
      (runWrite o enc w).exitCode = 1 ∧
      (runWrite o enc w).world.stderrLog = w.stderrLog ++ [ioDiagnostic]) := by
  obtain ⟨d, p, wr, n⟩ := o
  cases d <;> cases p <;> cases wr <;>
    simp [runCreate, runWrite, succeeds, openOk, pushErr, pushOut, setFile]

/-- C5 witness: the failure half at a concrete failing run. -/
theorem C5_exit_code_iff_success_witness :
    succeeds oNoDir = false ∧
    ((runCreate oNoDir emptyWorld).exitCode = 1 ∧
     (runCreate oNoDir emptyWorld).world.stderrLog
        = emptyWorld.stderrLog ++ [ioDiagnostic] ∧
     (runWrite oNoDir utf8Char emptyWorld).exitCode = 1 ∧
     (runWrite oNoDir utf8Char emptyWorld).world.stderrLog
        = emptyWorld.stderrLog ++ [ioDiagnostic]) :=
  ⟨by decide,
    (C5_exit_code_iff_success oNoDir utf8Char emptyWorld).2.2 (by decide)⟩

/-- A world with environment variables set, to witness environment
independence. -/
def envWorld : World :=
  { files := fun _ => none, stdoutLog := [], stderrLog := [], netLog := [],
    envVars := fun _ => some "C.UTF-8" }

/-- The Latin-1 single-byte encoding, a second ASCII-compatible encoding. -/
def latin1Char (c : Char) : Bytes := [c.toNat % 256]

theorem latin1Char_asciiCompatible : asciiCompatible latin1Char := by
  intro c h
  unfold latin1Char
  rw [Nat.mod_eq_of_lt (lt_trans h (by norm_num))]

/-- C6: the only filesystem effect of either script is at the single target
path: every other path is untouched on every run, and the network log and
the environment variables are unchanged (no network calls, no environment
mutation, no inter-process communication). -/
theorem C6_single_file_frame (o : Oracle) (enc : Char → Bytes) (w : World)
    (p : String) (hp : p ≠ pathCreate) :
    (runCreate o w).world.files p = w.files p ∧
    (runCreate o w).world.netLog = w.netLog ∧
    (runCreate o w).world.envVars = w.envVars ∧
    (runWrite o enc w).world.files p = w.files p ∧
    (runWrite o enc w).world.netLog = w.netLog ∧
    (runWrite o enc w).world.envVars = w.envVars := by
  have hp2 : p ≠ pathWrite := hp
  obtain ⟨d, pm, wr, n⟩ := o
  cases d <;> cases pm <;> cases wr <;>
    simp [runCreate, runWrite, openOk, pushErr, pushOut, setFile, hp, hp2]

/-- C6 witness at a concrete non-target path. -/
theorem C6_single_file_frame_witness :
    ("other.R" : String) ≠ pathCreate ∧
    ((runCreate oAllOk emptyWorld).world.files "other.R" = emptyWorld.files "other.R" ∧
     (runCreate oAllOk emptyWorld).world.netLog = emptyWorld.netLog ∧
     (runCreate oAllOk emptyWorld).world.envVars = emptyWorld.envVars ∧
     (runWrite oAllOk utf8Char emptyWorld).world.files "other.R"
        = emptyWorld.files "other.R" ∧
     (runWrite oAllOk utf8Char emptyWorld).world.netLog = emptyWorld.netLog ∧
     (runWrite oAllOk utf8Char emptyWorld).world.envVars = emptyWorld.envVars) :=
  ⟨by decide, C6_single_file_frame oAllOk utf8Char emptyWorld "other.R" (by decide)⟩

/-- C7: determinism and environment independence: for any two successful
runs, under any oracles, any starting worlds (hence any environment
variables) and, for the second script, any two ASCII-compatible locale
encodings, the bytes at the target path are identical, both across runs of
one script and across the two scripts. -/
theorem C7_deterministic (o o' : Oracle) (enc enc' : Char → Bytes) (w w' : World)
    (hs : succeeds o = true) (hs' : succeeds o' = true)
    (he : asciiCompatible enc) (he' : asciiCompatible enc') :
    (runCreate o w).world.files pathCreate
      = (runCreate o' w').world.files pathCreate ∧
    (runWrite o enc w).world.files pathWrite
      = (runWrite o' enc' w').world.files pathWrite ∧
    (runCreate o w).world.files pathCreate
      = (runWrite o' enc' w').world.files pathWrite := by
  rw [runCreate_files_success o w hs, runCreate_files_success o' w' hs',
    runWrite_files_success o enc w hs he,
    runWrite_files_success o' enc' w' hs' he', payloadWrite_eq_payloadCreate]
  exact ⟨rfl, rfl, rfl⟩

/-- C7 witness: two concrete runs in different worlds (one of them with
environment variables set) and under two different ASCII-compatible
encodings. -/
theorem C7_deterministic_witness :
    succeeds oAllOk = true ∧ asciiCompatible utf8Char ∧
    asciiCompatible latin1Char ∧
    ((runCreate oAllOk emptyWorld).world.files pathCreate
       = (runCreate oAllOk envWorld).world.files pathCreate ∧
     (runWrite oAllOk utf8Char emptyWorld).world.files pathWrite
       = (runWrite oAllOk latin1Char envWorld).world.files pathWrite ∧
     (runCreate oAllOk emptyWorld).world.files pathCreate
       = (runWrite oAllOk latin1Char envWorld).world.files pathWrite) :=
  ⟨by decide, utf8Char_asciiCompatible, latin1Char_asciiCompatible,
    C7_deterministic oAllOk oAllOk utf8Char latin1Char emptyWorld envWorld
      (by decide) (by decide) utf8Char_asciiCompatible latin1Char_asciiCompatible⟩

/-- C8: on every exit path of either script, including both error paths, any
file handle opened in the trace is closed later in the trace (the with
statement releases the handle). -/
theorem C8_handle_released (o : Oracle) (enc : Char → Bytes) (w : World) :
    releasedAfterOpen (runCreate o w).trace = true ∧
    releasedAfterOpen (runWrite o enc w).trace = true := by
  obtain ⟨d, p, wr, n⟩ := o
  cases d <;> cases p <;> cases wr <;>
    simp [runCreate, runWrite, openOk, releasedAfterOpen, isClosingOf, List.any]

/-- C9: every standard-output message of either script occurs strictly after
the payload write and after the close of the file handle; on a failed open
or a failed write, nothing at all is printed to standard output. -/
theorem C9_prints_after_write_close (o : Oracle) (enc : Char → Bytes) (w : World) :
    printsOnlyAfter isCloseFile (runCreate o w).trace = true ∧
    printsOnlyAfter isWriteFile (runCreate o w).trace = true ∧
    printsOnlyAfter isCloseFile (runWrite o enc w).trace = true ∧
    printsOnlyAfter isWriteFile (runWrite o enc w).trace = true ∧
    (succeeds o = false →
      ((runCreate o w).trace.all fun e => !isPrintOut e) = true ∧
      ((runWrite o enc w).trace.all fun e => !isPrintOut e) = true) := by
  obtain ⟨d, p, wr, n⟩ := o
  cases d <;> cases p <;> cases wr <;>
    simp [runCreate, runWrite, succeeds, openOk, printsOnlyAfter, isCloseFile,
      isWriteFile, isPrintOut, List.all]

/-- C9 witness: the no-output-on-failure half at a concrete failing run. -/
theorem C9_prints_after_write_close_witness :
    succeeds oNoDir = false ∧
    (((runCreate oNoDir emptyWorld).trace.all fun e => !isPrintOut e) = true ∧
     ((runWrite oNoDir utf8Char emptyWorld).trace.all fun e => !isPrintOut e) = true) :=
  ⟨by decide,
    (C9_prints_after_write_close oNoDir utf8Char emptyWorld).2.2.2.2 (by decide)⟩

/-- C10: the embedded payload of each script is non-empty and pure ASCII,
its UTF-8 encoding is exactly its sequence of ASCII character codes, the
bytes produced under any ASCII-compatible encoding coincide with the UTF-8
bytes, and the encoded output of a successful run is non-empty. -/
theorem C10_payload_nonempty_ascii (enc : Char → Bytes) (henc : asciiCompatible enc) :
    payloadCreate ≠ "" ∧ payloadWrite ≠ "" ∧
    (∀ c ∈ payloadCreate.data, c.toNat < 128) ∧
    (∀ c ∈ payloadWrite.data, c.toNat < 128) ∧
    utf8Encode payloadCreate = payloadCreate.data.map Char.toNat ∧
    utf8Encode payloadWrite = payloadWrite.data.map Char.toNat ∧
    encodeWith enc payloadCreate = utf8Encode payloadCreate ∧
    encodeWith enc payloadWrite = utf8Encode payloadWrite ∧
    utf8Encode payloadCreate ≠ [] ∧ utf8Encode payloadWrite ≠ [] := by
  refine ⟨payloadCreate_ne_empty, payloadWrite_ne_empty, payloadCreate_ascii,
    payloadWrite_ascii, utf8Encode_payloadCreate_eq_map, ?_,
    encodeWith_eq_utf8 enc henc payloadCreate payloadCreate_ascii,
    encodeWith_eq_utf8 enc henc payloadWrite payloadWrite_ascii,
    utf8Encode_payloadCreate_ne_nil, ?_⟩
  · rw [payloadWrite_eq_payloadCreate]
    exact utf8Encode_payloadCreate_eq_map
  · rw [payloadWrite_eq_payloadCreate]
    exact utf8Encode_payloadCreate_ne_nil

/-- C10 witness at a concrete ASCII-compatible encoding. -/
theorem C10_payload_nonempty_ascii_witness :
    asciiCompatible latin1Char ∧
    (payloadCreate ≠ "" ∧ payloadWrite ≠ "" ∧
     (∀ c ∈ payloadCreate.data, c.toNat < 128) ∧
     (∀ c ∈ payloadWrite.data, c.toNat < 128) ∧
     utf8Encode payloadCreate = payloadCreate.data.map Char.toNat ∧
     utf8Encode payloadWrite = payloadWrite.data.map Char.toNat ∧
     encodeWith latin1Char payloadCreate = utf8Encode payloadCreate ∧
     encodeWith latin1Char payloadWrite = utf8Encode payloadWrite ∧
     utf8Encode payloadCreate ≠ [] ∧ utf8Encode payloadWrite ≠ []) :=
  ⟨latin1Char_asciiCompatible,
    C10_payload_nonempty_ascii latin1Char latin1Char_asciiCompatible⟩

end Hildesheim
